import Mathlib

/-!
Verification development for the rlassopy repository (rigorous lasso estimators).

The Python source (src/rlassopy/models.py) is shallowly embedded here.
Real numbers are modelled as rationals.  External library calls that the
spec declares out of scope (numpy sqrt/log, scipy normal quantile and
Pearson correlation, numpy matrix inverse, the cvxpy convex solver,
random normal draws and the empirical quantile) are modelled as oracle
function parameters collected in the `Oracles` structure; everything the
repository itself computes (branching, penalty formulas, the fixed-point
iteration, thresholding, the post-OLS refit, centering, validation) is
embedded as executable Lean definitions translated from the source.

Python exceptions actually reachable in the embedded code paths are
modelled by the `PyErr` type; `PyErr.solverFailure` is the distinguishable
solver-failure error kind named by the specification (shown below to never
be produced by the code).
-/

abbrev Vec := List ℚ

abbrev Mat := List (List ℚ)

/-- Covariance types accepted by the estimator (`cov_type` strings in source). -/
inductive CovType where
  | nonrobust
  | robust
  | cluster
  deriving DecidableEq, Repr

/-- Python exception kinds reachable in the embedded code paths, plus the
spec's hypothesised `SolverFailure` kind. -/
inductive PyErr where
  | typeError
  | attributeError
  | notImplementedError
  | unboundLocalError
  | valueError
  | solverFailure
  deriving DecidableEq, Repr

/-- Constructor parameters of `RlassoBase.__init__` (models.py lines 170-197).
Note the source has no `sqrt` parameter: the sqrt variant is a separate class. -/
structure Config where
  fit_intercept : Bool
  post : Bool
  cov_type : CovType
  x_dependent : Bool
  n_corr : ℕ
  max_iter : ℕ
  n_sim : ℕ
  c : ℚ
  gamma : Option ℚ
  zero_tol : ℚ
  convergence_tol : ℚ
  solver_opts : List String
  deriving DecidableEq, Repr

/-- The default keyword values of `RlassoBase.__init__`. -/
def defaultConfig : Config :=
  ⟨true, true, CovType.nonrobust, false, 5, 2, 5000, 11/10, none, 1/10000, 1/10000, []⟩

/-- Functional update of the single mutable field the source assigns
(`self.gamma = ...` inside `_penalty_level`). -/
def setGamma (cfg : Config) (g : Option ℚ) : Config :=
  ⟨cfg.fit_intercept, cfg.post, cfg.cov_type, cfg.x_dependent, cfg.n_corr, cfg.max_iter,
   cfg.n_sim, cfg.c, g, cfg.zero_tol, cfg.convergence_tol, cfg.solver_opts⟩

/-- External collaborators (spec section 2): statistical and linear-algebra
primitives and the convex solver, passed in as black-box functions.
`solve` models `prob.solve(**self.solver_opts)` followed by reading
`beta.value`: cvxpy yields `None` for a non-optimal status, hence `Option`. -/
structure Oracles where
  sqrtO : ℚ → ℚ
  logO : ℚ → ℚ
  ppf : ℚ → ℚ
  pearson : Vec → Vec → ℚ
  inv : Mat → Mat
  solve : Mat → Vec → ℚ → Mat → ℕ → Option Vec
  randn : ℕ → ℕ → ℕ → Mat
  quantile : Vec → ℚ → ℚ

/- ## Basic dense linear algebra on lists -/

def dot (a b : Vec) : ℚ :=
  ((List.zip a b).map (fun p => p.1 * p.2)).sum

def matVec (M : Mat) (v : Vec) : Vec :=
  M.map (fun row => dot row v)

def width (M : Mat) : ℕ :=
  (M.headD []).length

def transpose (M : Mat) : Mat :=
  (List.range (width M)).map (fun j => M.map (fun row => row.getD j 0))

def matMul (A B : Mat) : Mat :=
  A.map (fun ar => (transpose B).map (fun bc => dot ar bc))

def vecSub (a b : Vec) : Vec :=
  (List.zip a b).map (fun p => p.1 - p.2)

def mean (v : Vec) : ℚ :=
  v.sum / (v.length : ℚ)

def colMeans (M : Mat) : Vec :=
  (transpose M).map mean

def hadamard (A B : Mat) : Mat :=
  (List.zip A B).map (fun rr => (List.zip rr.1 rr.2).map (fun p => p.1 * p.2))

def npMax : Vec → ℚ
  | [] => 0
  | x :: xs => xs.foldl max x

def diag (v : Vec) : Mat :=
  (List.range v.length).map (fun i =>
    (List.range v.length).map (fun j => if i = j then v.getD i 0 else 0))

/-- `np.diag(np.ones(p))`. -/
def identityMat (p : ℕ) : Mat :=
  diag (List.replicate p 1)

/-- Column selection `X[:, idx]`. -/
def cols (X : Mat) (idx : List ℕ) : Mat :=
  X.map (fun row => idx.map (fun j => row.getD j 0))

/-- Single column `X[:, j]`. -/
def colOf (X : Mat) (j : ℕ) : Vec :=
  X.map (fun row => row.getD j 0)

def norm1 (v : Vec) : ℚ :=
  (v.map (fun a => |a|)).sum

/-- `np.isclose(a, b, atol=atol)` with numpy's default relative tolerance 1e-5. -/
def isClose (atol a b : ℚ) : Bool :=
  decide (|a - b| ≤ atol + (1/100000) * |b|)

/-- `np.allclose(A, B, atol=atol)` for same-shaped matrices. -/
def allClose (atol : ℚ) (A B : Mat) : Bool :=
  decide (A.length = B.length) &&
    (List.zip A B).all (fun rr =>
      decide (rr.1.length = rr.2.length) &&
        (List.zip rr.1 rr.2).all (fun p => isClose atol p.1 p.2))

/- ## Penalty loadings (models.py `_penalty_loadings` of both variants) -/

/-- `np.einsum("ij, i -> j", X**2, resid**2)`. -/
def einsumXe2 (X : Mat) (resid : Vec) : Vec :=
  (transpose X).map (fun colv => dot (colv.map (fun a => a * a)) (resid.map (fun e => e * e)))

/-- `np.sqrt(np.mean(X**2, axis=0))` (homoscedastic loadings, both variants). -/
def nonrobustPsi (o : Oracles) (X : Mat) : Vec :=
  (transpose X).map (fun colv => o.sqrtO (mean (colv.map (fun a => a * a))))

/-- Standard-variant heteroscedastic loadings `np.sqrt(Xe2 / n)`. -/
def robustPsiStd (o : Oracles) (X : Mat) (resid : Vec) (n : ℕ) : Vec :=
  (einsumXe2 X resid).map (fun v => o.sqrtO (v / (n : ℚ)))

/-- Sqrt-variant heteroscedastic loadings
`np.maximum(np.sqrt(Xe2/n), np.sqrt(Xe2/np.sum(resid**2)))`. -/
def robustPsiSqrt (o : Oracles) (X : Mat) (resid : Vec) (n : ℕ) : Vec :=
  (einsumXe2 X resid).map (fun v =>
    max (o.sqrtO (v / (n : ℚ))) (o.sqrtO (v / (resid.map (fun e => e * e)).sum)))

/-- `Rlasso._penalty_loadings` (models.py lines 316-331).  Branch order as in
source: the `robust`-with-residuals case first, then the explicit `cluster`
raise, and everything else (including `robust` with `resid=None`) falls into
the homoscedastic `else`. -/
def rlassoPenaltyLoadings (cfg : Config) (o : Oracles) (X : Mat) (n : ℕ)
    (resid : Option Vec) : Except PyErr Mat :=
  match cfg.cov_type, resid with
  | CovType.robust, some r => Except.ok (diag (robustPsiStd o X r n))
  | CovType.cluster, _ => Except.error PyErr.notImplementedError
  | _, _ => Except.ok (diag (nonrobustPsi o X))

/-- `SqrtRlasso._penalty_loadings` (models.py lines 477-494).  `nonrobust`
first, then `robust`-with-residuals, everything else raises. -/
def sqrtPenaltyLoadings (cfg : Config) (o : Oracles) (X : Mat) (n : ℕ)
    (resid : Option Vec) : Except PyErr Mat :=
  match cfg.cov_type, resid with
  | CovType.nonrobust, _ => Except.ok (diag (nonrobustPsi o X))
  | CovType.robust, some r => Except.ok (diag (robustPsiSqrt o X r n))
  | _, _ => Except.error PyErr.notImplementedError

/- ## Penalty level (models.py `_penalty_level` of both variants) -/

/-- The `self.gamma` auto-default mutation at the top of `_penalty_level`
(identical in both variants, models.py lines 335-336 and 465-466):
`if self.gamma is None: self.gamma = 0.1 / np.log(n)`. -/
def gammaStep (cfg : Config) (o : Oracles) (n : ℕ) : Config :=
  match cfg.gamma with
  | none => setGamma cfg (some ((1/10) / o.logO (n : ℚ)))
  | some _ => cfg

/-- One x-dependent Monte-Carlo statistic
`n * np.max(2 * np.abs(np.mean(Xpsi * g, axis=0)))`. -/
def simStat (n : ℕ) (Xpsi g : Mat) : ℚ :=
  (n : ℚ) * npMax ((colMeans (hadamard Xpsi g)).map (fun m => 2 * |m|))

/-- Body of `Rlasso._penalty_level` (models.py lines 338-366) after the gamma
mutation: `cfg` is assumed gamma-updated.  The x-dependent branch computes
`Xpsi = X @ psi` before inspecting `cov_type`; with `X`/`psi` absent that line
raises `TypeError` (`None @ None`), with a non-`nonrobust` covariance the
unfinished `else` (a bare `pass` plus `print(f"Lambda: {lambd}")`) raises
`UnboundLocalError`, and with a missing `sigma_hat` the product
`self.c * sigma_hat * ...` raises `TypeError`. -/
def rlassoPenaltyLevelCore (cfg : Config) (o : Oracles) (n p : ℕ)
    (sigma_hat : Option ℚ) (X : Option Mat) (psi : Option Mat) : Except PyErr ℚ :=
  let gam := cfg.gamma.getD 0
  if cfg.x_dependent then
    match X, psi with
    | some Xm, some psim =>
      let Xpsi := matMul Xm psim
      if cfg.cov_type = CovType.nonrobust then
        match sigma_hat with
        | some sig =>
          let sims := (List.range cfg.n_sim).map (fun r => simStat n Xpsi (o.randn r n p))
          Except.ok (cfg.c * sig * o.quantile sims (1 - gam))
        | none => Except.error PyErr.typeError
      else
        Except.error PyErr.unboundLocalError
    | _, _ => Except.error PyErr.typeError
  else
    let prob := o.ppf (1 - gam / (2 * (p : ℚ)))
    match cfg.cov_type, sigma_hat with
    | CovType.nonrobust, some sig => Except.ok (2 * cfg.c * sig * o.sqrtO (n : ℚ) * prob)
    | _, _ => Except.ok (2 * cfg.c * o.sqrtO (n : ℚ) * prob)

/-- `Rlasso._penalty_level` (models.py lines 333-366): mutate `self.gamma`
if unset, then compute.  Returns the level together with the updated
configuration (the mutated estimator state). -/
def rlassoPenaltyLevel (cfg : Config) (o : Oracles) (n p : ℕ)
    (sigma_hat : Option ℚ) (X : Option Mat) (psi : Option Mat) :
    Except PyErr (ℚ × Config) :=
  match rlassoPenaltyLevelCore (gammaStep cfg o n) o n p sigma_hat X psi with
  | Except.error e => Except.error e
  | Except.ok l => Except.ok (l, gammaStep cfg o n)

/-- `SqrtRlasso._penalty_level` (models.py lines 463-475): same gamma default,
then `c * sqrt(n) * ppf(1 - gamma/(2p))`; the x-dependent path raises
`NotImplementedError`. -/
def sqrtPenaltyLevel (cfg : Config) (o : Oracles) (n p : ℕ) :
    Except PyErr (ℚ × Config) :=
  let cfg1 := gammaStep cfg o n
  let gam := cfg1.gamma.getD 0
  let prob := o.ppf (1 - gam / (2 * (p : ℚ)))
  if cfg1.x_dependent then Except.error PyErr.notImplementedError
  else Except.ok (cfg1.c * o.sqrtO (n : ℚ) * prob, cfg1)

/-- Written after the spec's words only, for the refinement comparison of
claim C4: "`gamma` defaults to `0.1/sqrt(n)` for standard variant". -/
def gammaSpecStandard (o : Oracles) (n : ℕ) : ℚ :=
  (1/10) / o.sqrtO (n : ℚ)

/- ## Criterion functions (documentation of the two convex objectives) -/

/-- `Rlasso._criterion_function` (models.py lines 288-314):
`cp.sum_squares(y - X @ beta) / n + (lambd / n) * cp.norm1(psi @ beta)`. -/
def rlassoCriterion (X : Mat) (y : Vec) (beta : Vec) (lambd : ℚ) (psi : Mat)
    (n : ℕ) : ℚ :=
  ((vecSub y (matVec X beta)).map (fun e => e * e)).sum / (n : ℚ) +
    (lambd / (n : ℚ)) * norm1 (matVec psi beta)

/-- `SqrtRlasso._criterion_function` (models.py lines 435-461): the loss is the
unsquared residual norm `cp.norm2(y - X @ beta) / cp.sqrt(n)`. -/
def sqrtCriterion (o : Oracles) (X : Mat) (y : Vec) (beta : Vec) (lambd : ℚ)
    (psi : Mat) (n : ℕ) : ℚ :=
  o.sqrtO (((vecSub y (matVec X beta)).map (fun e => e * e)).sum) / o.sqrtO (n : ℚ) +
    (lambd / (n : ℚ)) * norm1 (matVec psi beta)

/- ## Convex solve step with thresholding and in-solve post refit -/

/-- Hard-threshold line of `_cvxpy_solve` (models.py line 275):
`beta[np.where(np.abs(beta) < self.zero_tol)] = 0.0`. -/
def zeroThreshold (tol : ℚ) (b : Vec) : Vec :=
  b.map (fun x => if |x| < tol then 0 else x)

/-- `np.where(beta != 0)[0]`. -/
def nonzeroIdx (beta : Vec) : List ℕ :=
  (List.range beta.length).filter (fun j => decide (beta.getD j 0 ≠ 0))

/-- Fancy-index assignment `beta[idx] = vals`. -/
def scatter (b : Vec) (idx : List ℕ) (vals : Vec) : Vec :=
  (List.zip idx vals).foldl (fun acc iv => acc.set iv.1 iv.2) b

/-- Closed-form OLS `np.linalg.inv(Xs.T @ Xs) @ Xs.T @ y` (matrix inverse is
the external oracle). -/
def olsBeta (o : Oracles) (Xs : Mat) (y : Vec) : Vec :=
  matVec (matMul (o.inv (matMul (transpose Xs) Xs)) (transpose Xs)) y

/-- The `if self.post:` block inside `_cvxpy_solve` (models.py lines 277-282):
OLS refit on the nonzero support, scattered back into `beta`. -/
def postOls (o : Oracles) (beta : Vec) (X : Mat) (y : Vec) : Vec :=
  scatter beta (nonzeroIdx beta) (olsBeta o (cols X (nonzeroIdx beta)) y)

/-- `RlassoBase._cvxpy_solve` (models.py lines 262-284).  The solver oracle
stands for `prob.solve` plus `beta.value`; a `None` value (non-optimal
status) makes the thresholding line raise `TypeError`.  The second component
of the result is instrumentation: 1 when the in-solve post refit ran. -/
def cvxpySolve (cfg : Config) (o : Oracles) (X : Mat) (y : Vec) (lambd : ℚ)
    (psi : Mat) (n : ℕ) : Except PyErr (Vec × ℕ) :=
  match o.solve X y lambd psi n with
  | none => Except.error PyErr.typeError
  | some raw =>
    let beta := zeroThreshold cfg.zero_tol raw
    if cfg.post then Except.ok (postOls o beta X y, 1) else Except.ok (beta, 0)

/- ## The Rlasso fixed-point algorithm (models.py `Rlasso._rlasso_algorithm`) -/

/-- Absolute Pearson correlations `|st.pearsonr(X[:, k], y)[0]|` for all `p`
features. -/
def corrVec (o : Oracles) (X : Mat) (y : Vec) (p : ℕ) : Vec :=
  (List.range p).map (fun k => |o.pearson (colOf X k) y|)

/-- Stable insertion of index `i` into an ascending-by-value index list. -/
def insertIdx (v : Vec) (i : ℕ) : List ℕ → List ℕ
  | [] => [i]
  | j :: js => if v.getD i 0 ≤ v.getD j 0 then i :: j :: js else j :: insertIdx v i js

/-- `np.argsort(v)` (ascending; ties resolved stably in this model). -/
def argsort (v : Vec) : List ℕ :=
  (List.range v.length).foldr (insertIdx v) []

/-- Python slice `l[-k:]` (note `l[-0:]` is the whole list). -/
def lastSlice (k : ℕ) (l : List ℕ) : List ℕ :=
  if k = 0 then l else l.drop (l.length - k)

/-- Indices of the `n_corr` most-correlated features,
`np.argsort(r)[-self.n_corr:]` (models.py line 376). -/
def pilotIdx (cfg : Config) (o : Oracles) (X : Mat) (y : Vec) (p : ℕ) : List ℕ :=
  lastSlice cfg.n_corr (argsort (corrVec o X y p))

/-- The pilot OLS coefficients (models.py lines 372-377). -/
def pilotBeta (cfg : Config) (o : Oracles) (X : Mat) (y : Vec) (p : ℕ) : Vec :=
  olsBeta o (cols X (pilotIdx cfg o X y p)) y

/-- Result of `_rlasso_algorithm` plus instrumentation: `nIter` is the
source's `n_iter` counter (one increment per convex solve), `nPostRefits`
counts executions of the in-solve post-refit block, `cfgOut` is the estimator
configuration after the `self.gamma` mutation. -/
structure AlgoResult where
  beta : Vec
  lambd : ℚ
  psi : Mat
  nIter : ℕ
  nPostRefits : ℕ
  cfgOut : Config
  deriving DecidableEq, Repr

/-- The `nonrobust` iteration of `Rlasso._rlasso_algorithm` (models.py lines
381-406): loadings fixed, lambda recomputed from `sigma_hat` each round,
stop when `np.isclose(lambd, lambd0, atol=convergence_tol)`. -/
def nonrobustLoop (o : Oracles) (X : Mat) (y : Vec) (n p : ℕ) (psi : Mat) :
    ℕ → Config → Vec → Vec → ℚ → ℕ → ℕ → Except PyErr AlgoResult
  | 0, cfg, beta0, _, lambd0, k, r => Except.ok ⟨beta0, lambd0, psi, k, r, cfg⟩
  | Nat.succ fuel, cfg, beta0, resid0, lambd0, k, r =>
    let sigmahat := o.sqrtO (mean (resid0.map (fun e => e * e)))
    match rlassoPenaltyLevel cfg o n p (some sigmahat)
        (if cfg.x_dependent then some X else none)
        (if cfg.x_dependent then some psi else none) with
    | Except.error e => Except.error e
    | Except.ok lc =>
      if isClose lc.2.convergence_tol lc.1 lambd0 then
        Except.ok ⟨beta0, lambd0, psi, k, r, lc.2⟩
      else
        match cvxpySolve lc.2 o X y lc.1 psi n with
        | Except.error e => Except.error e
        | Except.ok br =>
          nonrobustLoop o X y n p psi fuel lc.2 br.1
            (vecSub y (matVec X br.1)) lc.1 (k + 1) (r + br.2)

/-- The `robust` iteration of `Rlasso._rlasso_algorithm` (models.py lines
408-427): lambda fixed, loadings recomputed from residuals each round, stop
when `np.allclose(psi, psi0, atol=convergence_tol)`; on either exit the
returned loadings are `psi0`. -/
def robustLoop (o : Oracles) (X : Mat) (y : Vec) (n : ℕ) (lambd : ℚ) :
    ℕ → Config → Vec → Vec → Mat → ℕ → ℕ → Except PyErr AlgoResult
  | 0, cfg, beta0, _, psi0, k, r => Except.ok ⟨beta0, lambd, psi0, k, r, cfg⟩
  | Nat.succ fuel, cfg, beta0, resid0, psi0, k, r =>
    match rlassoPenaltyLoadings cfg o X n (some resid0) with
    | Except.error e => Except.error e
    | Except.ok psi =>
      if allClose cfg.convergence_tol psi psi0 then
        Except.ok ⟨beta0, lambd, psi0, k, r, cfg⟩
      else
        match cvxpySolve cfg o X y lambd psi n with
        | Except.error e => Except.error e
        | Except.ok br =>
          robustLoop o X y n lambd fuel cfg br.1
            (vecSub y (matVec X br.1)) psi (k + 1) (r + br.2)

/-- `Rlasso._rlasso_algorithm` (models.py lines 368-431): pilot OLS on the
most-correlated features, then the covariance-type-dependent loop. -/
def rlassoAlgorithm (cfg : Config) (o : Oracles) (X : Mat) (y : Vec) :
    Except PyErr AlgoResult :=
  let n := X.length
  let p := width X
  let beta0 := pilotBeta cfg o X y p
  let resid0 := vecSub y (matVec (cols X (pilotIdx cfg o X y p)) beta0)
  if cfg.cov_type = CovType.nonrobust then
    match rlassoPenaltyLoadings cfg o X n none with
    | Except.error e => Except.error e
    | Except.ok psi => nonrobustLoop o X y n p psi cfg.max_iter cfg beta0 resid0 0 0 0
  else
    match rlassoPenaltyLevel cfg o n p none none none with
    | Except.error e => Except.error e
    | Except.ok lc =>
      robustLoop o X y n lc.1 cfg.max_iter lc.2 beta0 resid0 (identityMat p) 0 0

/- ## Estimator wrapper: fit / predict (models.py `RlassoBase`) -/

/-- Attributes stored on the estimator after `fit`, plus instrumentation.
`intercept_` is `Option` because the source's `fit` never assigns
`self.intercept_` (no line in models.py writes it). -/
structure FitState where
  coef_ : Vec
  lambd_ : ℚ
  psi_ : Mat
  intercept_ : Option ℚ
  fitIntercept : Bool
  nIter : ℕ
  nPostRefits : ℕ
  deriving DecidableEq, Repr

/-- `sklearn.utils.validation.check_X_y`: 2-d nonempty rectangular `X`,
`y` of matching length; returns the shape `(n, p)`. -/
def checkXY (X : Mat) (y : Vec) : Except PyErr (ℕ × ℕ) :=
  match X with
  | [] => Except.error PyErr.valueError
  | r0 :: rest =>
    if ((r0 :: rest).all (fun row => decide (row.length = r0.length)) &&
        decide (y.length = (r0 :: rest).length) && decide (0 < r0.length)) then
      Except.ok ((r0 :: rest).length, r0.length)
    else Except.error PyErr.valueError

/-- Mean-centering of the design matrix, `X - X.mean(axis=0)`. -/
def centerCols (X : Mat) : Mat :=
  X.map (fun row => (List.zip row (colMeans X)).map (fun ab => ab.1 - ab.2))

/-- Design matrix as seen by the engine: centered iff `fit_intercept`. -/
def centeredX (cfg : Config) (X : Mat) : Mat :=
  if cfg.fit_intercept then centerCols X else X

/-- Response as seen by the engine: centered iff `fit_intercept`. -/
def centeredY (cfg : Config) (y : Vec) : Vec :=
  if cfg.fit_intercept then y.map (fun a => a - mean y) else y

/-- `RlassoBase.fit` (models.py lines 199-221): validate, center if
requested, run the algorithm, store `coef_`, `lambd_`, `psi_`.  No line of
the source assigns `self.intercept_`, so the stored intercept is `none`. -/
def rlassoFit (cfg : Config) (o : Oracles) (X : Mat) (y : Vec) :
    Except PyErr FitState :=
  match checkXY X y with
  | Except.error e => Except.error e
  | Except.ok _ =>
    match rlassoAlgorithm cfg o (centeredX cfg X) (centeredY cfg y) with
    | Except.error e => Except.error e
    | Except.ok res =>
      Except.ok ⟨res.beta, res.lambd, res.psi, none, cfg.fit_intercept,
        res.nIter, res.nPostRefits⟩

/-- `RlassoBase.predict` (models.py lines 223-244): `X @ coef_`, then
`pred += self.intercept_` when `fit_intercept` — an attribute `fit` never
stored, so that line raises `AttributeError`. -/
def rlassoPredict (st : FitState) (X : Mat) : Except PyErr Vec :=
  if X.all (fun row => decide (row.length = st.coef_.length)) then
    let pred := matVec X st.coef_
    if st.fitIntercept then
      match st.intercept_ with
      | some b => Except.ok (pred.map (fun v => v + b))
      | none => Except.error PyErr.attributeError
    else Except.ok pred
  else Except.error PyErr.valueError

/-- The exact keyword parameters accepted by `RlassoBase.__init__`
(models.py lines 170-185); the signature is keyword-only with no `**kwargs`. -/
def rlassoInitKeywords : List String :=
  ["fit_intercept", "post", "cov_type", "x_dependent", "n_corr", "max_iter",
   "n_sim", "c", "gamma", "zero_tol", "convergence_tol", "solver_opts"]

/-- Calling `Rlasso(<kwargs>)`: Python raises `TypeError` for any keyword
argument outside the declared keyword-only parameter list. -/
def rlassoInitAccepts (kwargs : List String) : Except PyErr Unit :=
  if kwargs.all (fun k => rlassoInitKeywords.contains k) then Except.ok ()
  else Except.error PyErr.typeError

/- ## Concrete oracle assignments and inputs used in the claim theorems.
The scalar oracles are simple total functions; where a specific value
matters (e.g. sqrt 100 = 10) it is noted at the definition. -/

/-- Matrix-inverse oracle behaving correctly on 1x1 matrices. -/
def inv1 : Mat → Mat := fun M =>
  match M with
  | [[a]] => [[1 / a]]
  | _ => M

/-- Identity scalar oracles, perfectly correlated Pearson, 1x1 inverse, and
a solver reporting a non-optimal status (`beta.value` = `None`). -/
def oDummy : Oracles :=
  ⟨fun q => q, fun q => q, fun q => q, fun _ _ => 1, inv1,
   fun _ _ _ _ _ => none, fun _ _ _ => [], fun _ _ => 0⟩

def XC1 : Mat := [[1], [2]]

def yC1 : Vec := [2, 4]

/-- Estimator state stored by `fit` on the C1 input. -/
def stC1 : FitState :=
  match rlassoFit defaultConfig oDummy XC1 yC1 with
  | Except.ok st => st
  | Except.error _ => ⟨[], 0, [], none, true, 0, 0⟩

/-- Default configuration (post=true, nonrobust) for the C2 counterexample. -/
def cfg2c : Config :=
  ⟨true, true, CovType.nonrobust, false, 5, 2, 5000, 11/10, none, 1/10000, 1/10000, []⟩

def X2c : Mat := [[1], [3]]

def y2c : Vec := [2, 6]

/-- Configuration with `max_iter = 0` and `post = true` for the C2 witness. -/
def cfg2w : Config :=
  ⟨true, true, CovType.nonrobust, false, 5, 0, 5000, 11/10, none, 1/10000, 1/10000, []⟩

/-- Oracle whose solver always returns the optimal point `[1]`. -/
def oSolve2 : Oracles :=
  ⟨fun q => q, fun q => q, fun q => q, fun _ _ => 1, inv1,
   fun _ _ _ _ _ => some [1], fun _ _ _ => [], fun _ _ => 0⟩

/-- Algorithm result on the C2 witness input. -/
def r2w : AlgoResult :=
  match rlassoAlgorithm cfg2w oSolve2 [[1]] [2] with
  | Except.ok r => r
  | Except.error _ => ⟨[], 0, [], 0, 0, cfg2w⟩

/-- Standard-variant configuration with unset gamma for C4. -/
def cfg4 : Config :=
  ⟨true, true, CovType.nonrobust, false, 5, 2, 5000, 11/10, none, 1/10000, 1/10000, []⟩

/-- Oracle with sqrt(100) = 10 and log(100) = 4.6 (the two values used at
n = 100; 4.6 is the rounded natural log). -/
def o4 : Oracles :=
  ⟨fun _ => 10, fun _ => 23/5, fun q => q, fun _ _ => 0, fun M => M,
   fun _ _ _ _ _ => none, fun _ _ _ => [], fun _ _ => 0⟩

/-- Robust, x-dependent configuration for C6. -/
def cfg6 : Config :=
  ⟨true, true, CovType.robust, true, 5, 2, 5000, 11/10, none, 1/10000, 1/10000, []⟩

def X6 : Mat := [[1, 0], [0, 1], [1, 1], [0, 0]]

/-- Robust configuration for C7. -/
def cfg7 : Config :=
  ⟨true, true, CovType.robust, false, 5, 2, 5000, 11/10, none, 1/10000, 1/10000, []⟩

/-- Same configuration with nonrobust covariance, for the C7 comparison. -/
def cfg7n : Config :=
  ⟨true, true, CovType.nonrobust, false, 5, 2, 5000, 11/10, none, 1/10000, 1/10000, []⟩

def X7 : Mat := [[1], [2]]

/-- Cluster configuration for C8. -/
def cfg8 : Config :=
  ⟨true, true, CovType.cluster, false, 5, 2, 5000, 11/10, none, 1/10000, 1/10000, []⟩

/-- Oracle whose solver returns `[1/100000, 5]` (first entry below the
default `zero_tol`), for the C9 witness. -/
def o9 : Oracles :=
  ⟨fun q => q, fun q => q, fun q => q, fun _ _ => 1, inv1,
   fun _ _ _ _ _ => some [1/100000, 5], fun _ _ _ => [], fun _ _ => 0⟩

/-- Configuration with `max_iter = 0`, `n_corr = 1`, no intercept, for C10. -/
def cfg10 : Config :=
  ⟨false, true, CovType.nonrobust, false, 1, 0, 5, 11/10, none, 1/10000, 1/10000, []⟩

/-- Identity-style oracle with an exact identity inverse, for C10. -/
def o10 : Oracles :=
  ⟨fun q => q, fun q => q, fun q => q, fun _ _ => 1, fun M => M,
   fun _ _ _ _ _ => none, fun _ _ _ => [], fun _ _ => 0⟩


/-- Decidable equality for `Except` results, used to evaluate the embedded
functions at concrete inputs inside proofs. -/
instance {e a : Type} [DecidableEq e] [DecidableEq a] : DecidableEq (Except e a) :=
  fun x y =>
    match x, y with
    | Except.ok u, Except.ok v =>
      if h : u = v then Decidable.isTrue (by rw [h])
      else Decidable.isFalse (fun hc => h (by cases hc; rfl))
    | Except.error u, Except.error v =>
      if h : u = v then Decidable.isTrue (by rw [h])
      else Decidable.isFalse (fun hc => h (by cases hc; rfl))
    | Except.ok _, Except.error _ => Decidable.isFalse (fun hc => Except.noConfusion hc)
    | Except.error _, Except.ok _ => Decidable.isFalse (fun hc => Except.noConfusion hc)

/- ## Helper lemmas -/

theorem gammaStep_post (cfg : Config) (o : Oracles) (n : ℕ) :
    (gammaStep cfg o n).post = cfg.post := by
  unfold gammaStep
  rcases hg : cfg.gamma with _ | g <;> simp [hg, setGamma]

theorem gammaStep_x_dependent (cfg : Config) (o : Oracles) (n : ℕ) :
    (gammaStep cfg o n).x_dependent = cfg.x_dependent := by
  unfold gammaStep
  rcases hg : cfg.gamma with _ | g <;> simp [hg, setGamma]

theorem gammaStep_cov_type (cfg : Config) (o : Oracles) (n : ℕ) :
    (gammaStep cfg o n).cov_type = cfg.cov_type := by
  unfold gammaStep
  rcases hg : cfg.gamma with _ | g <;> simp [hg, setGamma]

theorem gammaStep_gamma_none (cfg : Config) (o : Oracles) (n : ℕ) (h : cfg.gamma = none) :
    (gammaStep cfg o n).gamma = some ((1/10) / o.logO (n : ℚ)) := by
  unfold gammaStep
  rw [h]
  rfl

theorem gammaStep_gamma_some (cfg : Config) (o : Oracles) (n : ℕ) (g : ℚ)
    (h : cfg.gamma = some g) : (gammaStep cfg o n).gamma = some g := by
  unfold gammaStep
  rw [h]
  exact h

theorem rlassoPenaltyLevelCore_xindep (cfg : Config) (o : Oracles) (n p : ℕ)
    (sh : Option ℚ) (Xo psio : Option Mat) (h : cfg.x_dependent = false) :
    ∃ l, rlassoPenaltyLevelCore cfg o n p sh Xo psio = Except.ok l := by
  unfold rlassoPenaltyLevelCore
  rw [h]
  cases hc : cfg.cov_type <;> cases sh <;> simp

theorem rlassoPenaltyLevel_cfgOut (cfg : Config) (o : Oracles) (n p : ℕ)
    (sh : Option ℚ) (Xo psio : Option Mat) (lc : ℚ × Config)
    (h : rlassoPenaltyLevel cfg o n p sh Xo psio = Except.ok lc) :
    lc.2 = gammaStep cfg o n := by
  unfold rlassoPenaltyLevel at h
  cases hc : rlassoPenaltyLevelCore (gammaStep cfg o n) o n p sh Xo psio <;> rw [hc] at h
  · simp at h
  · cases h
    rfl

theorem rlassoPenaltyLevel_gamma (cfg : Config) (o : Oracles) (n p : ℕ)
    (sh : Option ℚ) (Xo psio : Option Mat) (hx : cfg.x_dependent = false) :
    (rlassoPenaltyLevel cfg o n p sh Xo psio).map (fun lc => lc.2.gamma) =
      Except.ok ((gammaStep cfg o n).gamma) := by
  obtain ⟨l, hl⟩ := rlassoPenaltyLevelCore_xindep (gammaStep cfg o n) o n p sh Xo psio
    (by rw [gammaStep_x_dependent]; exact hx)
  unfold rlassoPenaltyLevel
  rw [hl]
  rfl

theorem sqrtPenaltyLevel_gamma (cfg : Config) (o : Oracles) (n p : ℕ)
    (hx : cfg.x_dependent = false) :
    (sqrtPenaltyLevel cfg o n p).map (fun lc => lc.2.gamma) =
      Except.ok ((gammaStep cfg o n).gamma) := by
  have h1 : (gammaStep cfg o n).x_dependent = false := by
    rw [gammaStep_x_dependent]; exact hx
  simp [sqrtPenaltyLevel, h1]
  rfl

theorem zeroThreshold_mem (tol : ℚ) (b : Vec) (x : ℚ)
    (hx : x ∈ zeroThreshold tol b) (hlt : |x| < tol) : x = 0 := by
  simp only [zeroThreshold, List.mem_map] at hx
  obtain ⟨a, -, rfl⟩ := hx
  by_cases h : |a| < tol
  · simp [h]
  · rw [if_neg h] at hlt ⊢
    exact absurd hlt h

theorem foldl_set_getD (j : ℕ) (l : List (ℕ × ℚ)) (b : Vec)
    (h : ∀ iv ∈ l, iv.1 ≠ j) :
    (l.foldl (fun acc iv => acc.set iv.1 iv.2) b).getD j 0 = b.getD j 0 := by
  induction l generalizing b with
  | nil => rfl
  | cons iv l ih =>
    rw [List.foldl_cons, ih _ (fun x hx => h x (List.mem_cons_of_mem iv hx))]
    have h1 : iv.1 ≠ j := h iv (List.mem_cons_self iv l)
    simp [List.getD_eq_getElem?_getD, List.getElem?_set_ne h1]

theorem postOls_zero (o : Oracles) (beta : Vec) (X : Mat) (y : Vec) (j : ℕ)
    (hz : beta.getD j 0 = 0) : (postOls o beta X y).getD j 0 = 0 := by
  unfold postOls scatter
  rw [foldl_set_getD]
  · exact hz
  · intro iv hiv hj
    obtain ⟨i, v⟩ := iv
    have h1 : i ∈ nonzeroIdx beta := (List.of_mem_zip hiv).1
    simp only [nonzeroIdx, List.mem_filter, List.mem_range, decide_eq_true_eq] at h1
    have hij : i = j := hj
    subst hij
    exact h1.2 hz

theorem cvxpySolve_refit (cfg : Config) (o : Oracles) (X : Mat) (y : Vec)
    (lambd : ℚ) (psi : Mat) (n : ℕ) (br : Vec × ℕ)
    (h : cvxpySolve cfg o X y lambd psi n = Except.ok br) :
    br.2 = (if cfg.post then 1 else 0) := by
  unfold cvxpySolve at h
  cases hs : o.solve X y lambd psi n <;> rw [hs] at h
  · simp at h
  · cases hp : cfg.post <;> rw [hp] at h <;> simp at h <;> rw [← h] <;> rfl

theorem nonrobustLoop_refits (o : Oracles) (X : Mat) (y : Vec) (n p : ℕ) (psi : Mat)
    (fuel : ℕ) :
    ∀ (cfg : Config) (b0 r0 : Vec) (l0 : ℚ) (k r : ℕ) (res : AlgoResult),
      nonrobustLoop o X y n p psi fuel cfg b0 r0 l0 k r = Except.ok res →
      r = (if cfg.post then k else 0) →
      res.nPostRefits = (if cfg.post then res.nIter else 0) := by
  induction fuel with
  | zero =>
    intro cfg b0 r0 l0 k r res h hi
    cases h
    simpa using hi
  | succ fuel ih =>
    intro cfg b0 r0 l0 k r res h hi
    simp only [nonrobustLoop] at h
    split at h
    · exact Except.noConfusion h
    · rename_i lc hpl
      have hpost : lc.2.post = cfg.post := by
        rw [rlassoPenaltyLevel_cfgOut _ _ _ _ _ _ _ _ hpl, gammaStep_post]
      split at h
      · cases h
        simpa using hi
      · split at h
        · exact Except.noConfusion h
        · rename_i br hbr
          have h2 := cvxpySolve_refit _ _ _ _ _ _ _ _ hbr
          have h3 := ih lc.2 br.1 (vecSub y (matVec X br.1)) lc.1 (k + 1) (r + br.2) res h
            (by rw [hpost] at h2 ⊢; cases hp : cfg.post <;> simp [hp] at h2 hi ⊢ <;> omega)
          rwa [hpost] at h3

theorem robustLoop_refits (o : Oracles) (X : Mat) (y : Vec) (n : ℕ) (lambd : ℚ)
    (fuel : ℕ) :
    ∀ (cfg : Config) (b0 r0 : Vec) (psi0 : Mat) (k r : ℕ) (res : AlgoResult),
      robustLoop o X y n lambd fuel cfg b0 r0 psi0 k r = Except.ok res →
      r = (if cfg.post then k else 0) →
      res.nPostRefits = (if cfg.post then res.nIter else 0) := by
  induction fuel with
  | zero =>
    intro cfg b0 r0 psi0 k r res h hi
    cases h
    simpa using hi
  | succ fuel ih =>
    intro cfg b0 r0 psi0 k r res h hi
    simp only [robustLoop] at h
    split at h
    · exact Except.noConfusion h
    · rename_i psi hpsi
      split at h
      · cases h
        simpa using hi
      · split at h
        · exact Except.noConfusion h
        · rename_i br hbr
          have h2 := cvxpySolve_refit _ _ _ _ _ _ _ _ hbr
          exact ih cfg br.1 (vecSub y (matVec X br.1)) psi (k + 1) (r + br.2) res h
            (by cases hp : cfg.post <;> simp [hp] at h2 hi ⊢ <;> omega)

theorem rlassoAlgorithm_refits (cfg : Config) (o : Oracles) (X : Mat) (y : Vec)
    (res : AlgoResult) (h : rlassoAlgorithm cfg o X y = Except.ok res) :
    res.nPostRefits = (if cfg.post then res.nIter else 0) := by
  simp only [rlassoAlgorithm] at h
  split at h
  · split at h
    · exact Except.noConfusion h
    · rename_i psi hpsi
      exact nonrobustLoop_refits o X y X.length (width X) psi cfg.max_iter cfg _ _ 0 0 0 res h
        (by cases hp : cfg.post <;> simp [hp])
  · split at h
    · exact Except.noConfusion h
    · rename_i lc hpl
      have h3 := robustLoop_refits o X y X.length lc.1 cfg.max_iter lc.2 _ _ _ 0 0 res h
        (by cases hp : lc.2.post <;> simp [hp])
      have hpost : lc.2.post = cfg.post := by
        rw [rlassoPenaltyLevel_cfgOut _ _ _ _ _ _ _ _ hpl, gammaStep_post]
      rwa [hpost] at h3

theorem insertIdx_length (v : Vec) (i : ℕ) (l : List ℕ) :
    (insertIdx v i l).length = l.length + 1 := by
  induction l with
  | nil => rfl
  | cons j js ih =>
    simp only [insertIdx]
    by_cases h : v.getD i 0 ≤ v.getD j 0
    · rw [if_pos h]
      rfl
    · rw [if_neg h]
      simp only [List.length_cons, ih]

theorem argsort_length (v : Vec) : (argsort v).length = v.length := by
  unfold argsort
  have h : ∀ l : List ℕ, (l.foldr (insertIdx v) []).length = l.length := by
    intro l
    induction l with
    | nil => rfl
    | cons a l ih =>
      rw [List.foldr_cons, insertIdx_length, ih]
      rfl
  rw [h, List.length_range]

theorem lastSlice_length (k : ℕ) (l : List ℕ) (h1 : 0 < k) (h2 : k ≤ l.length) :
    (lastSlice k l).length = k := by
  unfold lastSlice
  rw [if_neg (Nat.pos_iff_ne_zero.mp h1), List.length_drop]
  omega

theorem corrVec_length (o : Oracles) (X : Mat) (y : Vec) (p : ℕ) :
    (corrVec o X y p).length = p := by
  simp [corrVec]

theorem pilotIdx_length (cfg : Config) (o : Oracles) (X : Mat) (y : Vec) (p : ℕ)
    (h1 : 0 < cfg.n_corr) (h2 : cfg.n_corr ≤ p) :
    (pilotIdx cfg o X y p).length = cfg.n_corr := by
  unfold pilotIdx
  rw [lastSlice_length _ _ h1 (by rw [argsort_length, corrVec_length]; exact h2)]

theorem transpose_length (M : Mat) : (transpose M).length = width M := by
  simp [transpose]

theorem matMul_length (A B : Mat) : (matMul A B).length = A.length := by
  simp [matMul]

theorem matVec_length (M : Mat) (v : Vec) : (matVec M v).length = M.length := by
  simp [matVec]

theorem cols_width (X : Mat) (idx : List ℕ) (h : X ≠ []) :
    width (cols X idx) = idx.length := by
  cases X with
  | nil => exact absurd rfl h
  | cons r rest => simp [cols, width]

theorem olsBeta_length (o : Oracles) (Xs : Mat) (y : Vec)
    (hinv : ∀ M, (o.inv M).length = M.length) :
    (olsBeta o Xs y).length = width Xs := by
  unfold olsBeta
  rw [matVec_length, matMul_length, hinv, matMul_length, transpose_length]

theorem pilotBeta_length (cfg : Config) (o : Oracles) (X : Mat) (y : Vec) (p : ℕ)
    (hinv : ∀ M, (o.inv M).length = M.length) (hne : X ≠ [])
    (h1 : 0 < cfg.n_corr) (h2 : cfg.n_corr ≤ p) :
    (pilotBeta cfg o X y p).length = cfg.n_corr := by
  unfold pilotBeta
  rw [olsBeta_length _ _ _ hinv, cols_width _ _ hne, pilotIdx_length _ _ _ _ _ h1 h2]

theorem centerCols_ne_nil (X : Mat) (h : X ≠ []) : centerCols X ≠ [] := by
  cases X with
  | nil => exact absurd rfl h
  | cons r rest => simp [centerCols]

theorem centeredX_ne_nil (cfg : Config) (X : Mat) (h : X ≠ []) :
    centeredX cfg X ≠ [] := by
  unfold centeredX
  cases hf : cfg.fit_intercept
  · simpa using h
  · simpa using centerCols_ne_nil X h

theorem width_centerCols (X : Mat) : width (centerCols X) = width X := by
  cases X with
  | nil => rfl
  | cons r rest =>
    show ((List.zip r (colMeans (r :: rest))).map _).length = r.length
    rw [List.length_map, List.length_zip]
    have h : (colMeans (r :: rest)).length = r.length := by
      simp [colMeans, transpose, width]
    rw [h, Nat.min_self]

theorem width_centeredX (cfg : Config) (X : Mat) :
    width (centeredX cfg X) = width X := by
  unfold centeredX
  cases hf : cfg.fit_intercept <;> simp [width_centerCols]

theorem checkXY_ok (X : Mat) (y : Vec) (n p : ℕ) (h : checkXY X y = Except.ok (n, p)) :
    X ≠ [] ∧ width X = p := by
  cases X with
  | nil => simp [checkXY] at h
  | cons r rest =>
    refine ⟨by simp, ?_⟩
    simp only [checkXY] at h
    split at h
    · simp only [Except.ok.injEq, Prod.mk.injEq] at h
      rw [← h.2]
      rfl
    · simp at h

theorem rlassoAlgorithm_maxiter0 (cfg : Config) (o : Oracles) (X : Mat) (y : Vec)
    (hmax : cfg.max_iter = 0) (hxd : cfg.x_dependent = false) :
    ∃ res, rlassoAlgorithm cfg o X y = Except.ok res ∧
      res.beta = pilotBeta cfg o X y (width X) ∧
      res.nIter = 0 ∧ res.nPostRefits = 0 ∧
      (cfg.cov_type = CovType.nonrobust → res.lambd = 0) := by
  by_cases hcov : cfg.cov_type = CovType.nonrobust
  · have hload : rlassoPenaltyLoadings cfg o X X.length none =
        Except.ok (diag (nonrobustPsi o X)) := by
      simp [rlassoPenaltyLoadings, hcov]
    refine ⟨⟨pilotBeta cfg o X y (width X), 0, diag (nonrobustPsi o X), 0, 0, cfg⟩,
      ?_, rfl, rfl, rfl, fun _ => rfl⟩
    simp only [rlassoAlgorithm, if_pos hcov, hload, hmax, nonrobustLoop]
  · obtain ⟨l, hl⟩ := rlassoPenaltyLevelCore_xindep (gammaStep cfg o X.length) o
      X.length (width X) none none none (by rw [gammaStep_x_dependent]; exact hxd)
    have hpl : rlassoPenaltyLevel cfg o X.length (width X) none none none =
        Except.ok (l, gammaStep cfg o X.length) := by
      unfold rlassoPenaltyLevel
      rw [hl]
    refine ⟨⟨pilotBeta cfg o X y (width X), l, identityMat (width X), 0, 0,
      gammaStep cfg o X.length⟩, ?_, rfl, rfl, rfl, fun hc => absurd hc hcov⟩
    simp only [rlassoAlgorithm, if_neg hcov, hpl, hmax, robustLoop]

/- ## Claim theorems -/

unseal Rat.mul Rat.add Rat.sub Rat.inv in
/-- C1 (code_bug): on a concrete input, `fit` with `fit_intercept = true`
succeeds but stores no intercept (the source never assigns
`self.intercept_`), and the subsequent `predict` raises `AttributeError`
instead of returning `X @ coef_` plus the stored mean of `y`. -/
theorem c1_intercept_never_stored :
    rlassoFit defaultConfig oDummy XC1 yC1 = Except.ok stC1 ∧
    stC1.intercept_ = none ∧
    rlassoPredict stC1 XC1 = Except.error PyErr.attributeError :=
  ⟨rfl, rfl, rfl⟩

unseal Rat.mul Rat.add Rat.sub Rat.inv in
/-- C2 counterexample: a fit with `post = true` whose iteration loop
converges at the first lambda check performs zero post refits, not the
exactly one after-loop refit the claim states. -/
theorem c2_post_refit_counterexample :
    cfg2c.post = true ∧
    (rlassoAlgorithm cfg2c oDummy X2c y2c).map (fun r => r.nPostRefits) = Except.ok 0 ∧
    (rlassoAlgorithm cfg2c oDummy X2c y2c).map (fun r => decide (r.nPostRefits = 1)) =
      Except.ok false :=
  ⟨rfl, rfl, rfl⟩

/-- C2 (corrected): in the source the post-lasso OLS refit lives inside
`_cvxpy_solve`, so with `post` set it runs once per convex solve
(`nPostRefits = nIter`, which can be 0 or larger than 1), not once after
the iteration loop; within each refit, coefficients outside the nonzero
support stay exactly zero and support coefficients are replaced by the OLS
fit on the support submatrix. -/
theorem c2_post_refit_inside_solve (cfg : Config) (o : Oracles) (X : Mat) (y : Vec)
    (lambd : ℚ) (psi : Mat) (n : ℕ) (raw : Vec) (res : AlgoResult) (beta : Vec) (j : ℕ)
    (hs : o.solve X y lambd psi n = some raw) (hp : cfg.post = true)
    (hr : rlassoAlgorithm cfg o X y = Except.ok res)
    (hz : beta.getD j 0 = 0) :
    cvxpySolve cfg o X y lambd psi n =
      Except.ok (postOls o (zeroThreshold cfg.zero_tol raw) X y, 1) ∧
    res.nPostRefits = res.nIter ∧
    (postOls o beta X y).getD j 0 = 0 := by
  refine ⟨?_, ?_, postOls_zero o beta X y j hz⟩
  · unfold cvxpySolve
    rw [hs]
    simp [hp]
  · have h := rlassoAlgorithm_refits cfg o X y res hr
    rw [hp] at h
    simpa using h

unseal Rat.mul Rat.add Rat.sub Rat.inv in
/-- C2 witness: the corrected statement instantiated at a concrete run. -/
theorem c2_post_refit_witness :
    cvxpySolve cfg2w oSolve2 [[1]] [2] 1 [[1]] 1 =
      Except.ok (postOls oSolve2 (zeroThreshold cfg2w.zero_tol [1]) [[1]] [2], 1) ∧
    r2w.nPostRefits = r2w.nIter ∧
    (postOls oSolve2 [0] [[1]] [2]).getD 0 0 = 0 :=
  c2_post_refit_inside_solve cfg2w oSolve2 [[1]] [2] 1 [[1]] 1 [1] r2w [0] 0 rfl rfl
    rfl rfl

/-- C3 (code_bug): `RlassoBase.__init__` accepts no keyword named `sqrt`,
so constructing the estimator with that option raises `TypeError` — even
though the repository's own tests call `Rlasso(sqrt=..., post=...)`. -/
theorem c3_no_sqrt_keyword :
    rlassoInitAccepts ["sqrt", "post"] = Except.error PyErr.typeError ∧
    rlassoInitKeywords.contains "sqrt" = false := by
  exact ⟨rfl, by decide⟩

unseal Rat.mul Rat.add Rat.sub Rat.inv in
/-- C4 counterexample: with gamma unset the standard variant stores
`0.1/log(n)` (here `1/46` at n = 100 with log 100 = 4.6), not the
spec's `0.1/sqrt(n)` (which would be `1/100`). -/
theorem c4_gamma_counterexample :
    (rlassoPenaltyLevel cfg4 o4 100 5 (some 1) none none).map (fun lc => lc.2.gamma) =
      Except.ok (some (1/46)) ∧
    gammaSpecStandard o4 100 = 1/100 ∧
    decide ((1 : ℚ)/46 = 1/100) = false :=
  ⟨rfl, rfl, rfl⟩

/-- C4 (corrected): when gamma is not user-supplied, BOTH the standard and
the sqrt variant default it to `0.1/log(n)`, storing it on the estimator at
the first penalty-level computation; a stored gamma is never recomputed by
later penalty-level calls. -/
theorem c4_gamma_default (cfg cfgS : Config) (o : Oracles) (n p : ℕ)
    (sh : Option ℚ) (Xo psio : Option Mat) (g : ℚ)
    (hx : cfg.x_dependent = false) (hg : cfg.gamma = none)
    (hxS : cfgS.x_dependent = false) (hgS : cfgS.gamma = some g) :
    (rlassoPenaltyLevel cfg o n p sh Xo psio).map (fun lc => lc.2.gamma) =
      Except.ok (some ((1/10) / o.logO (n : ℚ))) ∧
    (sqrtPenaltyLevel cfg o n p).map (fun lc => lc.2.gamma) =
      Except.ok (some ((1/10) / o.logO (n : ℚ))) ∧
    (rlassoPenaltyLevel cfgS o n p sh Xo psio).map (fun lc => lc.2.gamma) =
      Except.ok (some g) ∧
    (sqrtPenaltyLevel cfgS o n p).map (fun lc => lc.2.gamma) = Except.ok (some g) := by
  refine ⟨?_, ?_, ?_, ?_⟩
  · rw [rlassoPenaltyLevel_gamma cfg o n p sh Xo psio hx, gammaStep_gamma_none cfg o n hg]
  · rw [sqrtPenaltyLevel_gamma cfg o n p hx, gammaStep_gamma_none cfg o n hg]
  · rw [rlassoPenaltyLevel_gamma cfgS o n p sh Xo psio hxS,
      gammaStep_gamma_some cfgS o n g hgS]
  · rw [sqrtPenaltyLevel_gamma cfgS o n p hxS, gammaStep_gamma_some cfgS o n g hgS]

/-- C4 witness: the corrected statement instantiated at n = 100 with an
unset and a user-supplied gamma. -/
theorem c4_gamma_witness :
    (rlassoPenaltyLevel cfg4 o4 100 5 (some 1) none none).map (fun lc => lc.2.gamma) =
      Except.ok (some ((1/10) / o4.logO (100 : ℚ))) ∧
    (sqrtPenaltyLevel cfg4 o4 100 5).map (fun lc => lc.2.gamma) =
      Except.ok (some ((1/10) / o4.logO (100 : ℚ))) ∧
    (rlassoPenaltyLevel (setGamma cfg4 (some (1/2))) o4 100 5 (some 1) none none).map
      (fun lc => lc.2.gamma) = Except.ok (some (1/2)) ∧
    (sqrtPenaltyLevel (setGamma cfg4 (some (1/2))) o4 100 5).map (fun lc => lc.2.gamma) =
      Except.ok (some (1/2)) :=
  c4_gamma_default cfg4 (setGamma cfg4 (some (1/2))) o4 100 5 (some 1) none none (1/2)
    rfl rfl rfl rfl

/-- C5 counterexample: a non-optimal solver status (value `None`) makes
`_cvxpy_solve` fail with a plain `TypeError` at the thresholding line — an
uncontrolled error, not the distinguishable `SolverFailure` kind. -/
theorem c5_nonoptimal_counterexample :
    cvxpySolve defaultConfig oDummy [[1], [2]] [1, 2] 1 [[1]] 2 =
      Except.error PyErr.typeError ∧
    decide (PyErr.typeError = PyErr.solverFailure) = false :=
  ⟨rfl, rfl⟩

/-- C5 (corrected): whenever the solver returns a non-optimal status, the
solve step raises `TypeError` (so it never silently returns a coefficient
vector), but it is not a distinguishable `SolverFailure`. -/
theorem c5_nonoptimal_typeerror (cfg : Config) (o : Oracles) (X : Mat) (y : Vec)
    (lambd : ℚ) (psi : Mat) (n : ℕ) (hs : o.solve X y lambd psi n = none) :
    cvxpySolve cfg o X y lambd psi n = Except.error PyErr.typeError := by
  unfold cvxpySolve
  rw [hs]

/-- C5 witness: the corrected statement instantiated at a concrete input. -/
theorem c5_nonoptimal_witness :
    cvxpySolve defaultConfig oDummy [[1]] [1] 1 [[1]] 1 = Except.error PyErr.typeError :=
  c5_nonoptimal_typeerror defaultConfig oDummy [[1]] [1] 1 [[1]] 1 rfl

unseal Rat.mul Rat.add Rat.sub Rat.inv in
/-- C6 (code_bug): requesting the standard-variant penalty level with
robust covariance and `x_dependent = true` fails with `UnboundLocalError`
(the unfinished branch prints an unassigned `lambd`), or with `TypeError`
(`None @ None`) when called without `X`/`psi` as the robust fitting path
does — never with the clear NotImplemented error the spec requires. -/
theorem c6_robust_xdep_uncontrolled :
    rlassoPenaltyLevel cfg6 oDummy 4 2 (some 1) (some X6) (some (identityMat 2)) =
      Except.error PyErr.unboundLocalError ∧
    rlassoPenaltyLevel cfg6 oDummy 4 2 none none none = Except.error PyErr.typeError ∧
    (rlassoPenaltyLevel cfg6 oDummy 4 2 (some 1) (some X6) (some (identityMat 2))).mapError
      (fun e => decide (e = PyErr.notImplementedError)) = Except.error false :=
  ⟨rfl, rfl, rfl⟩

unseal Rat.mul Rat.add Rat.sub Rat.inv in
/-- C7 counterexample: with robust covariance and NO residuals the
standard-variant loadings silently return the nonrobust formula
`sqrt(mean(X^2))` instead of requiring residuals. -/
theorem c7_silent_fallback_counterexample :
    cfg7.cov_type = CovType.robust ∧
    rlassoPenaltyLoadings cfg7 oDummy X7 2 none =
      Except.ok (diag (nonrobustPsi oDummy X7)) ∧
    rlassoPenaltyLoadings cfg7 oDummy X7 2 none =
      rlassoPenaltyLoadings cfg7n oDummy X7 2 none :=
  ⟨rfl, rfl, rfl⟩

/-- C7 (corrected): robust standard-variant loadings with residuals present
are `sqrt(sum_i X[i,j]^2 resid[i]^2 / n)` as claimed, but with residuals
absent the code silently substitutes the nonrobust formula rather than
failing. -/
theorem c7_robust_loadings (cfg : Config) (o : Oracles) (X : Mat) (n : ℕ) (r : Vec)
    (h : cfg.cov_type = CovType.robust) :
    rlassoPenaltyLoadings cfg o X n (some r) = Except.ok (diag (robustPsiStd o X r n)) ∧
    rlassoPenaltyLoadings cfg o X n none = Except.ok (diag (nonrobustPsi o X)) := by
  constructor <;> simp [rlassoPenaltyLoadings, h]

/-- C7 witness: the corrected statement instantiated at a concrete input. -/
theorem c7_robust_loadings_witness :
    rlassoPenaltyLoadings cfg7 oDummy X7 2 (some [1, 1]) =
      Except.ok (diag (robustPsiStd oDummy X7 [1, 1] 2)) ∧
    rlassoPenaltyLoadings cfg7 oDummy X7 2 none =
      Except.ok (diag (nonrobustPsi oDummy X7)) :=
  c7_robust_loadings cfg7 oDummy X7 2 [1, 1] rfl

/-- C8 (confirmed): with cluster covariance both variants' penalty-loadings
computations raise NotImplemented for every design matrix, sample count and
residual argument, and never return a loadings matrix. -/
theorem c8_cluster_raises (cfg : Config) (o : Oracles) (X : Mat) (n : ℕ)
    (resid : Option Vec) (h : cfg.cov_type = CovType.cluster) :
    rlassoPenaltyLoadings cfg o X n resid = Except.error PyErr.notImplementedError ∧
    sqrtPenaltyLoadings cfg o X n resid = Except.error PyErr.notImplementedError := by
  cases resid <;> simp [rlassoPenaltyLoadings, sqrtPenaltyLoadings, h]

/-- C8 witness: the cluster failure at a concrete input. -/
theorem c8_cluster_raises_witness :
    rlassoPenaltyLoadings cfg8 oDummy [[1]] 1 none =
      Except.error PyErr.notImplementedError ∧
    sqrtPenaltyLoadings cfg8 oDummy [[1]] 1 none =
      Except.error PyErr.notImplementedError :=
  c8_cluster_raises cfg8 oDummy [[1]] 1 none rfl

/-- C9 (confirmed): after every convex solve, the thresholded vector —
computed before any post refit, and returned directly when `post` is off —
has every entry of absolute value below `zero_tol` exactly zero. -/
theorem c9_sparsity (cfg : Config) (o : Oracles) (X : Mat) (y : Vec) (lambd : ℚ)
    (psi : Mat) (n : ℕ) (raw : Vec) (hs : o.solve X y lambd psi n = some raw) :
    (∀ x ∈ zeroThreshold cfg.zero_tol raw, |x| < cfg.zero_tol → x = 0) ∧
    cvxpySolve cfg o X y lambd psi n =
      Except.ok (if cfg.post then (postOls o (zeroThreshold cfg.zero_tol raw) X y, 1)
        else (zeroThreshold cfg.zero_tol raw, 0)) := by
  constructor
  · intro x hx hlt
    exact zeroThreshold_mem cfg.zero_tol raw x hx hlt
  · unfold cvxpySolve
    rw [hs]
    cases hp : cfg.post <;> simp [hp]

/-- C9 witness: the sparsity statement at a concrete solve whose raw
solution has an entry below the tolerance. -/
theorem c9_sparsity_witness :
    (∀ x ∈ zeroThreshold defaultConfig.zero_tol [1/100000, 5],
      |x| < defaultConfig.zero_tol → x = 0) ∧
    cvxpySolve defaultConfig o9 [[1, 0], [0, 1]] [1, 5] 1 (identityMat 2) 2 =
      Except.ok (if defaultConfig.post then
        (postOls o9 (zeroThreshold defaultConfig.zero_tol [1/100000, 5])
          [[1, 0], [0, 1]] [1, 5], 1)
        else (zeroThreshold defaultConfig.zero_tol [1/100000, 5], 0)) :=
  c9_sparsity defaultConfig o9 [[1, 0], [0, 1]] [1, 5] 1 (identityMat 2) 2
    [1/100000, 5] rfl

/-- C10 (confirmed): with `max_iter = 0` (and the x-independent default),
`fit` completes with zero solves and zero refits, stores as `coef_` the
pilot OLS coefficients on the `n_corr` most-correlated features — a vector
of length `n_corr`, not `p` — and in the nonrobust case stores
`lambd_ = 0`. -/
theorem c10_maxiter0 (cfg : Config) (o : Oracles) (X : Mat) (y : Vec) (n p : ℕ)
    (hck : checkXY X y = Except.ok (n, p))
    (hmax : cfg.max_iter = 0) (hxd : cfg.x_dependent = false)
    (hnc1 : 0 < cfg.n_corr) (hnc2 : cfg.n_corr ≤ p)
    (hinv : ∀ M, (o.inv M).length = M.length) :
    ∃ st, rlassoFit cfg o X y = Except.ok st ∧
      st.nIter = 0 ∧ st.nPostRefits = 0 ∧
      st.coef_ = pilotBeta cfg o (centeredX cfg X) (centeredY cfg y)
        (width (centeredX cfg X)) ∧
      st.coef_.length = cfg.n_corr ∧
      (cfg.cov_type = CovType.nonrobust → st.lambd_ = 0) := by
  obtain ⟨hne, hw⟩ := checkXY_ok X y n p hck
  obtain ⟨res, hres, hbeta, hni, hnr, hlam⟩ :=
    rlassoAlgorithm_maxiter0 cfg o (centeredX cfg X) (centeredY cfg y) hmax hxd
  refine ⟨⟨res.beta, res.lambd, res.psi, none, cfg.fit_intercept, res.nIter,
    res.nPostRefits⟩, ?_, hni, hnr, hbeta, ?_, hlam⟩
  · unfold rlassoFit
    rw [hck, hres]
  · rw [hbeta]
    exact pilotBeta_length cfg o _ _ _ hinv (centeredX_ne_nil cfg X hne) hnc1
      (by rw [width_centeredX, hw]; exact hnc2)

/-- C10 witness: the statement at a concrete one-feature input. -/
theorem c10_maxiter0_witness :
    ∃ st, rlassoFit cfg10 o10 [[1], [2]] [2, 4] = Except.ok st ∧
      st.nIter = 0 ∧ st.nPostRefits = 0 ∧
      st.coef_ = pilotBeta cfg10 o10 (centeredX cfg10 [[1], [2]])
        (centeredY cfg10 [2, 4]) (width (centeredX cfg10 [[1], [2]])) ∧
      st.coef_.length = cfg10.n_corr ∧
      (cfg10.cov_type = CovType.nonrobust → st.lambd_ = 0) :=
  c10_maxiter0 cfg10 o10 [[1], [2]] [2, 4] 2 1 rfl rfl rfl (by decide)
    (by decide) (fun M => rfl)
